import Mathlib

/-!
Verification of the DNS-GEE-O repository's WHOIS invoker, CLI configuration
loader and GeoLite auto-refresh against its natural-language specification.

Each definition is a shallow embedding of the corresponding Go function.
External effects (subprocess execution via `os/exec`, JSON decoding via
`encoding/json`, filesystem access via `os.Stat`, HTTP downloads, `strconv`
parsing) are passed in as oracle parameters, so every definition is a pure,
executable function of its inputs and oracles.  Go `time.Duration` values are
embedded as `Int` nanoseconds; `int(d.Seconds())` is truncation toward zero,
embedded as `Int.tdiv d 1000000000`.  Go `strings.TrimSpace` is embedded as
`goTrimSpace` (ASCII whitespace; the claims under study only involve ASCII).
-/

/-- Decidable equality for `Except`, so claims about call results can be
settled on concrete inputs by `decide`. -/
instance {ε α : Type} [DecidableEq ε] [DecidableEq α] : DecidableEq (Except ε α) := fun x y =>
  match x, y with
  | Except.error a, Except.error b =>
      if h : a = b then Decidable.isTrue (congrArg Except.error h)
      else Decidable.isFalse (fun hh => h (Except.error.inj hh))
  | Except.ok a, Except.ok b =>
      if h : a = b then Decidable.isTrue (congrArg Except.ok h)
      else Decidable.isFalse (fun hh => h (Except.ok.inj hh))
  | Except.error _, Except.ok _ => Decidable.isFalse (fun hh => Except.noConfusion hh)
  | Except.ok _, Except.error _ => Decidable.isFalse (fun hh => Except.noConfusion hh)

namespace DNSGeeo

/-- Result of one subprocess execution (`exec.Cmd.Run`): `err` is `some msg`
when `Run` returned a non-nil error (non-zero exit or spawn failure). -/
structure ExecResult where
  err : Option String
  stdout : String
  stderr : String
deriving DecidableEq

/-- Embedding of `RDAPEvent` from `internal/dnsgeeo/whois_tool.go`. -/
structure RDAPEvent where
  action : String := ""
  date : String := ""
deriving DecidableEq

/-- Embedding of `WhoisToolInfo` from `internal/dnsgeeo/whois_tool.go`.
Go nilable slices and `*int` become `Option`; `none` is Go `nil`. -/
structure WhoisToolInfo where
  domain : String := ""
  rootDomain : String := ""
  registrar : String := ""
  registrarCountry : String := ""
  registrantOrg : String := ""
  registrantAddress : String := ""
  nameServers : Option (List String) := none
  isAfraidHosted : Bool := false
  pslRegistrableDomain : String := ""
  pslPublicRegistrableDomain : String := ""
  pslPrivateSuffix : String := ""
  pslPublicSuffix : String := ""
  pslPrivateOwner : String := ""
  pslIsPrivate : Bool := false
  ddnsProviderBySuffix : String := ""
  ddnsProvidersByNS : Option (List String) := none
  ddnsProviders : Option (List String) := none
  createdAt : String := ""
  createdAtSource : String := ""
  ageDays : Option Int := none
  rdapURL : String := ""
  rdapCreatedAt : String := ""
  rdapStatus : Option (List String) := none
  rdapEvents : Option (List RDAPEvent) := none
  whoisCreatedAt : String := ""
  whoisExpirationDate : String := ""
  whoisUpdatedDate : String := ""
  whoisError : String := ""
  rdapError : String := ""
  cacheHit : Bool := false
deriving DecidableEq

/-- Embedding of `PSLPrivateEntry` from `internal/dnsgeeo/whois_tool.go`. -/
structure PSLPrivateEntry where
  suffix : String := ""
  owner : String := ""
deriving DecidableEq

/-- Go `unicode.IsSpace` restricted to ASCII (the claims under study involve
only ASCII whitespace). -/
def isGoSpace (c : Char) : Bool :=
  c = ' ' || c = '\t' || c = '\n' || c = '\r' || c.toNat = 11 || c.toNat = 12

/-- Embedding of `strings.TrimSpace`, written over the character list so
that it evaluates by `rfl`/`decide`. -/
def goTrimSpace (s : String) : String :=
  String.mk (((s.data.dropWhile isGoSpace).reverse.dropWhile isGoSpace).reverse)

/-- Embedding of `strings.Split(s, ",")` over the character list. -/
def splitCommaAux (cur : List Char) : List Char → List (List Char)
  | [] => [cur.reverse]
  | c :: cs => if c = ',' then cur.reverse :: splitCommaAux [] cs else splitCommaAux (c :: cur) cs

/-- `strings.Split(s, ",")`. -/
def splitComma (s : String) : List String :=
  (splitCommaAux [] s.data).map String.mk

/-- Oracle for `exec.CommandContext(...).Run()`: program name and argument
vector to the observed process result. -/
abbrev ExecFn := String → List String → ExecResult

/-- Oracle for `json.Unmarshal(output, &[]WhoisToolInfo{...})`. -/
abbrev ParseInfosFn := String → Except String (List WhoisToolInfo)

/-- Oracle for `json.Unmarshal(output, &[]PSLPrivateEntry{...})`. -/
abbrev ParsePSLFn := String → Except String (List PSLPrivateEntry)

/-- `whois_tool.go` lines 62-64 / 124-126: an empty interpreter path
defaults to `python3`. -/
def effectivePython (pythonPath : String) : String :=
  if pythonPath = "" then "python3" else pythonPath

/-- `whois_tool.go` lines 69-72 / 127-130: `timeoutSeconds :=
int(timeout.Seconds()); if timeoutSeconds <= 0 { timeoutSeconds = 8 }`. -/
def whoisTimeoutSeconds (timeout : Int) : Int :=
  let s := Int.tdiv timeout 1000000000
  if s ≤ 0 then 8 else s

/-- `whois_tool.go` line 74: the argument vector of the batch invocation. -/
def whoisArgs (toolPath : String) (domains : List String) (timeout : Int) : List String :=
  [toolPath, "--list", String.intercalate "," domains, "--timeout",
   toString (whoisTimeoutSeconds timeout)]

/-- `whois_tool.go` line 132: the argument vector of the PSL invocation. -/
def pslArgs (toolPath : String) (timeout : Int) : List String :=
  [toolPath, "--psl-private-list", "--timeout", toString (whoisTimeoutSeconds timeout)]

/-- `whois_tool.go` lines 109-114: a `nil` `DDNSProvidersByNS` or
`DDNSProviders` slice is replaced by an empty slice. -/
def withArrays (i : WhoisToolInfo) : WhoisToolInfo :=
  let i1 := if i.ddnsProvidersByNS = none then { i with ddnsProvidersByNS := some [] } else i
  if i1.ddnsProviders = none then { i1 with ddnsProviders := some [] } else i1

/-- Go map assignment `result[k] = v`: replace the existing entry for `k`
in place, or append a new one.  Lookup behaviour is that of a Go map. -/
def insertRecord (m : List (String × WhoisToolInfo)) (k : String) (v : WhoisToolInfo) :
    List (String × WhoisToolInfo) :=
  match m with
  | [] => [(k, v)]
  | (k', v') :: rest => if k' = k then (k, v) :: rest else (k', v') :: insertRecord rest k v

/-- `whois_tool.go` lines 103-116: the loop building `result` from the
parsed array, skipping records with an empty `domain`. -/
def buildResultAux (acc : List (String × WhoisToolInfo)) :
    List WhoisToolInfo → List (String × WhoisToolInfo)
  | [] => acc
  | i :: rest =>
      if i.domain = "" then buildResultAux acc rest
      else buildResultAux (insertRecord acc i.domain (withArrays i)) rest

/-- The mapping returned by `RunWhoisTool` for a parsed record array. -/
def buildResult (parsed : List WhoisToolInfo) : List (String × WhoisToolInfo) :=
  buildResultAux [] parsed

/-- `whois_tool.go` lines 81-101: interpretation of the subprocess result
(`err`, `stdout`, `stderr`) for the batch entry point. -/
def runWhoisToolOutcome (parse : ParseInfosFn) (r : ExecResult) :
    Except String (List (String × WhoisToolInfo)) :=
  if r.stdout = "" then
    match r.err with
    | some e =>
        if r.stderr ≠ "" then Except.error ("whois tool failed: " ++ goTrimSpace r.stderr)
        else Except.error ("whois tool failed: " ++ e)
    | none => Except.error "whois tool output was empty"
  else
    match parse r.stdout with
    | Except.error msg =>
        match r.err with
        | some e =>
            if r.stderr ≠ "" then Except.error ("whois tool failed: " ++ goTrimSpace r.stderr)
            else Except.error ("whois tool failed: " ++ e)
        | none => Except.error ("whois tool output parse error: " ++ msg)
    | Except.ok parsed => Except.ok (buildResult parsed)

/-- Embedding of `RunWhoisTool` (`whois_tool.go` lines 58-118).  Besides the
call's result it returns the list of subprocess launches (program, argv)
performed, so "launched exactly once with these arguments" is provable. -/
def RunWhoisTool (exec : ExecFn) (parse : ParseInfosFn)
    (pythonPath toolPath : String) (domains : List String) (timeout : Int) :
    Except String (List (String × WhoisToolInfo)) × List (String × List String) :=
  if toolPath = "" then (Except.error "whois tool path is empty", [])
  else
    let python := effectivePython pythonPath
    if domains = [] then (Except.ok [], [])
    else
      let args := whoisArgs toolPath domains timeout
      let r := exec python args
      (runWhoisToolOutcome parse r, [(python, args)])

/-- `whois_tool.go` lines 141-161: interpretation of the subprocess result
for the PSL entry point. -/
def runWhoisPSLOutcome (parse : ParsePSLFn) (r : ExecResult) :
    Except String (List PSLPrivateEntry) :=
  if r.stdout = "" then
    match r.err with
    | some e =>
        if r.stderr ≠ "" then Except.error ("whois tool failed: " ++ goTrimSpace r.stderr)
        else Except.error ("whois tool failed: " ++ e)
    | none => Except.error "whois tool output was empty"
  else
    match parse r.stdout with
    | Except.error msg =>
        match r.err with
        | some e =>
            if r.stderr ≠ "" then Except.error ("whois tool failed: " ++ goTrimSpace r.stderr)
            else Except.error ("whois tool failed: " ++ e)
        | none => Except.error ("whois tool output parse error: " ++ msg)
    | Except.ok parsed => Except.ok parsed

/-- Embedding of `RunWhoisPSLPrivateList` (`whois_tool.go` lines 120-162),
with the same launch log as `RunWhoisTool`. -/
def RunWhoisPSLPrivateList (exec : ExecFn) (parse : ParsePSLFn)
    (pythonPath toolPath : String) (timeout : Int) :
    Except String (List PSLPrivateEntry) × List (String × List String) :=
  if toolPath = "" then (Except.error "whois tool path is empty", [])
  else
    let python := effectivePython pythonPath
    let args := pslArgs toolPath timeout
    let r := exec python args
    (runWhoisPSLOutcome parse r, [(python, args)])

/-- `strings.TrimSuffix(raw, ".")`: drop one trailing dot when present. -/
def trimSuffixDot (s : String) : String :=
  if s.data.getLast? = some '.' then String.mk s.data.dropLast else s

/-- `whois_tool.go` line 168: the normalization the code applies — trailing
dot removed first, then surrounding whitespace. -/
def codeNormalize (raw : String) : String :=
  goTrimSpace (trimSuffixDot raw)

/-- Embedding of the loop body of `uniqueDomains` (`whois_tool.go` lines
164-182); `isIP` is the `net.ParseIP(host) != nil` oracle, `seen` the
already-emitted hosts. -/
def uniqueDomainsAux (isIP : String → Bool) : List String → List String → List String
  | [], _ => []
  | raw :: rest, seen =>
      let host := codeNormalize raw
      if host = "" then uniqueDomainsAux isIP rest seen
      else if isIP host then uniqueDomainsAux isIP rest seen
      else if host ∈ seen then uniqueDomainsAux isIP rest seen
      else host :: uniqueDomainsAux isIP rest (host :: seen)

/-- Embedding of `uniqueDomains` (`whois_tool.go` lines 164-182). -/
def uniqueDomains (isIP : String → Bool) (inputs : List String) : List String :=
  uniqueDomainsAux isIP inputs []

/-- The spec's normalization as worded: surrounding whitespace stripped and a
single trailing dot stripped, so the result never keeps a trailing dot. -/
def specNormalize (raw : String) : String :=
  trimSuffixDot (goTrimSpace raw)

/-- A normalized host survives iff it is non-empty and not an IP literal. -/
def keepHost (isIP : String → Bool) (h : String) : Bool :=
  !(h = "") && !(isIP h)

/-- First-occurrence deduplication by exact string equality, given the set of
strings already seen. -/
def dedupFrom (seen : List String) : List String → List String
  | [] => []
  | h :: t => if h ∈ seen then dedupFrom seen t else h :: dedupFrom (h :: seen) t

/-- The claim's description of the WHOIS domain list, with the spec's
normalization: normalize, drop empties and IP literals, deduplicate
preserving first occurrences. -/
def claimedDomainsSpec (isIP : String → Bool) (inputs : List String) : List String :=
  dedupFrom [] ((inputs.map specNormalize).filter (keepHost isIP))

/-- Same pipeline but with the code's normalization order (trailing dot
stripped before whitespace). -/
def claimedDomainsCode (isIP : String → Bool) (inputs : List String) : List String :=
  dedupFrom [] ((inputs.map codeNormalize).filter (keepHost isIP))

/-- The last element of the list whose `domain` field equals `d`. -/
def lastWithDomain (d : String) : List WhoisToolInfo → Option WhoisToolInfo
  | [] => none
  | i :: rest =>
      match lastWithDomain d rest with
      | some r => some r
      | none => if i.domain = d then some i else none

/-! ## Configuration loader (`cmd/dnsgeeo/config_loader.go`) -/

/-- The variables reachable through a `cliOptions` value: `none` models a nil
pointer, `some v` a pointer to a variable currently holding `v`. -/
structure OptsState where
  dnsServers : Option String := none
  timeoutMS : Option Int := none
  parallel : Option Int := none
  preferIPv6 : Option Bool := none
  cityDB : Option String := none
  asnDB : Option String := none
  pretty : Option Bool := none
  checkMalicious : Option Bool := none
  enableWhois : Option Bool := none
  whoisToolPath : Option String := none
  whoisPython : Option String := none
  whoisTimeoutMS : Option Int := none
  outputFile : Option String := none
  maxmindKey : Option String := none
  dbUpdateHours : Option Int := none
deriving DecidableEq

/-- Oracle for `strconv.Atoi`. -/
abbrev AtoiFn := String → Option Int

/-- Oracle for `strconv.ParseBool`. -/
abbrev ParseBoolFn := String → Option Bool

/-- One iteration of the `switch` in `applyConfigValues`
(`config_loader.go` lines 124-218) applied to one `key = value` pair. -/
def applyStep (atoi : AtoiFn) (parseBool : ParseBoolFn) (setFlags : String → Bool)
    (s : OptsState) (kv : String × String) : Except String OptsState :=
  match kv.1 with
  | "dns" =>
      if s.dnsServers.isSome ∧ ¬ setFlags "dns" then Except.ok { s with dnsServers := some kv.2 }
      else Except.ok s
  | "timeout-ms" =>
      if s.timeoutMS.isSome ∧ ¬ setFlags "timeout-ms" then
        match atoi kv.2 with
        | none => Except.error "timeout-ms must be an integer"
        | some n => Except.ok { s with timeoutMS := some n }
      else Except.ok s
  | "parallel" =>
      if s.parallel.isSome ∧ ¬ setFlags "parallel" then
        match atoi kv.2 with
        | none => Except.error "parallel must be an integer"
        | some n => Except.ok { s with parallel := some n }
      else Except.ok s
  | "prefer-ipv6" =>
      if s.preferIPv6.isSome ∧ ¬ setFlags "prefer-ipv6" then
        match parseBool kv.2 with
        | none => Except.error "prefer-ipv6 must be a boolean"
        | some b => Except.ok { s with preferIPv6 := some b }
      else Except.ok s
  | "city-db" =>
      if s.cityDB.isSome ∧ ¬ setFlags "city-db" then Except.ok { s with cityDB := some kv.2 }
      else Except.ok s
  | "asn-db" =>
      if s.asnDB.isSome ∧ ¬ setFlags "asn-db" then Except.ok { s with asnDB := some kv.2 }
      else Except.ok s
  | "pretty" =>
      if s.pretty.isSome ∧ ¬ setFlags "pretty" then
        match parseBool kv.2 with
        | none => Except.error "pretty must be a boolean"
        | some b => Except.ok { s with pretty := some b }
      else Except.ok s
  | "check-malicious" =>
      if s.checkMalicious.isSome ∧ ¬ setFlags "check-malicious" then
        match parseBool kv.2 with
        | none => Except.error "check-malicious must be a boolean"
        | some b => Except.ok { s with checkMalicious := some b }
      else Except.ok s
  | "whois" =>
      if s.enableWhois.isSome ∧ ¬ setFlags "whois" then
        match parseBool kv.2 with
        | none => Except.error "whois must be a boolean"
        | some b => Except.ok { s with enableWhois := some b }
      else Except.ok s
  | "whois-tool" =>
      if s.whoisToolPath.isSome ∧ ¬ setFlags "whois-tool" then
        Except.ok { s with whoisToolPath := some kv.2 }
      else Except.ok s
  | "whois-python" =>
      if s.whoisPython.isSome ∧ ¬ setFlags "whois-python" then
        Except.ok { s with whoisPython := some kv.2 }
      else Except.ok s
  | "whois-timeout-ms" =>
      if s.whoisTimeoutMS.isSome ∧ ¬ setFlags "whois-timeout-ms" then
        match atoi kv.2 with
        | none => Except.error "whois-timeout-ms must be an integer"
        | some n => Except.ok { s with whoisTimeoutMS := some n }
      else Except.ok s
  | "output" =>
      if s.outputFile.isSome ∧ ¬ setFlags "output" then
        Except.ok { s with outputFile := some kv.2 }
      else Except.ok s
  | "maxmind-license-key" =>
      if s.maxmindKey.isSome ∧ ¬ setFlags "maxmind-license-key" then
        Except.ok { s with maxmindKey := some kv.2 }
      else Except.ok s
  | "db-update-hours" =>
      if s.dbUpdateHours.isSome ∧ ¬ setFlags "db-update-hours" then
        match atoi kv.2 with
        | none => Except.error "db-update-hours must be an integer"
        | some n => Except.ok { s with dbUpdateHours := some n }
      else Except.ok s
  | _ => Except.ok s

/-- Embedding of `applyConfigValues` (`config_loader.go` lines 123-222): the
config map is iterated as an association list; a parse failure aborts with
the error, as the Go `return` does. -/
def applyConfigValues (atoi : AtoiFn) (parseBool : ParseBoolFn) (setFlags : String → Bool)
    (values : List (String × String)) (s : OptsState) : Except String OptsState :=
  match values with
  | [] => Except.ok s
  | kv :: rest =>
      match applyStep atoi parseBool setFlags s kv with
      | Except.error e => Except.error e
      | Except.ok s' => applyConfigValues atoi parseBool setFlags rest s'

/-- Names of the fifteen options reachable through `cliOptions`. -/
inductive FieldId where
  | dns | timeoutMS | parallel | preferIPv6 | cityDB | asnDB | pretty
  | checkMalicious | whois | whoisTool | whoisPython | whoisTimeoutMS
  | output | maxmindKey | dbUpdateHours
deriving DecidableEq

/-- The config key (= command-line flag name) of each option. -/
def keyOf : FieldId → String
  | .dns => "dns"
  | .timeoutMS => "timeout-ms"
  | .parallel => "parallel"
  | .preferIPv6 => "prefer-ipv6"
  | .cityDB => "city-db"
  | .asnDB => "asn-db"
  | .pretty => "pretty"
  | .checkMalicious => "check-malicious"
  | .whois => "whois"
  | .whoisTool => "whois-tool"
  | .whoisPython => "whois-python"
  | .whoisTimeoutMS => "whois-timeout-ms"
  | .output => "output"
  | .maxmindKey => "maxmind-license-key"
  | .dbUpdateHours => "db-update-hours"

/-- Two option states agree on the variable behind the given option. -/
def agrees : FieldId → OptsState → OptsState → Prop
  | .dns, s, s' => s'.dnsServers = s.dnsServers
  | .timeoutMS, s, s' => s'.timeoutMS = s.timeoutMS
  | .parallel, s, s' => s'.parallel = s.parallel
  | .preferIPv6, s, s' => s'.preferIPv6 = s.preferIPv6
  | .cityDB, s, s' => s'.cityDB = s.cityDB
  | .asnDB, s, s' => s'.asnDB = s.asnDB
  | .pretty, s, s' => s'.pretty = s.pretty
  | .checkMalicious, s, s' => s'.checkMalicious = s.checkMalicious
  | .whois, s, s' => s'.enableWhois = s.enableWhois
  | .whoisTool, s, s' => s'.whoisToolPath = s.whoisToolPath
  | .whoisPython, s, s' => s'.whoisPython = s.whoisPython
  | .whoisTimeoutMS, s, s' => s'.whoisTimeoutMS = s.whoisTimeoutMS
  | .output, s, s' => s'.outputFile = s.outputFile
  | .maxmindKey, s, s' => s'.maxmindKey = s.maxmindKey
  | .dbUpdateHours, s, s' => s'.dbUpdateHours = s.dbUpdateHours

/-! ## The CLI entry point (`cmd/dnsgeeo/main.go`) -/

/-- The flag variables of `main` after `flag.Parse()` (and, later, after
config-file application).  `configPath` is consumed before this point and
omitted. -/
structure Flags where
  list : String
  dns : String
  timeoutMS : Int
  parallel : Int
  preferIPv6 : Bool
  cityDB : String
  asnDB : String
  pretty : Bool
  checkMalicious : Bool
  enableWhois : Bool
  whoisToolPath : String
  whoisPython : String
  whoisTimeoutMS : Int
  pslPrivateList : Bool
  outputFile : String
  maxmindKey : String
  dbUpdateHours : Int
deriving DecidableEq

/-- The `flag.*Var` default values of `main.go` lines 274-291; `env` is the
`os.Getenv` oracle. -/
def defaultFlags (env : String → String) : Flags :=
  { list := "", dns := "8.8.8.8:53,8.8.4.4:53", timeoutMS := 2000, parallel := 64,
    preferIPv6 := true, cityDB := env "GEOLITE2_CITY_DB", asnDB := env "GEOLITE2_ASN_DB",
    pretty := false, checkMalicious := true, enableWhois := true, whoisToolPath := "",
    whoisPython := "python3", whoisTimeoutMS := 20000, pslPrivateList := false,
    outputFile := "", maxmindKey := env "MAXMIND_LICENSE_KEY", dbUpdateHours := 0 }

/-- The `cliOptions` literal of `main.go` lines 309-325: pointers to all
fifteen option variables. -/
def optsOf (f : Flags) : OptsState :=
  { dnsServers := some f.dns, timeoutMS := some f.timeoutMS, parallel := some f.parallel,
    preferIPv6 := some f.preferIPv6, cityDB := some f.cityDB, asnDB := some f.asnDB,
    pretty := some f.pretty, checkMalicious := some f.checkMalicious,
    enableWhois := some f.enableWhois, whoisToolPath := some f.whoisToolPath,
    whoisPython := some f.whoisPython, whoisTimeoutMS := some f.whoisTimeoutMS,
    outputFile := some f.outputFile, maxmindKey := some f.maxmindKey,
    dbUpdateHours := some f.dbUpdateHours }

/-- Read the (possibly updated) option variables back into the flag record. -/
def flagsAfterConfig (f : Flags) (s : OptsState) : Flags :=
  { f with
    dns := s.dnsServers.getD f.dns, timeoutMS := s.timeoutMS.getD f.timeoutMS,
    parallel := s.parallel.getD f.parallel, preferIPv6 := s.preferIPv6.getD f.preferIPv6,
    cityDB := s.cityDB.getD f.cityDB, asnDB := s.asnDB.getD f.asnDB,
    pretty := s.pretty.getD f.pretty, checkMalicious := s.checkMalicious.getD f.checkMalicious,
    enableWhois := s.enableWhois.getD f.enableWhois,
    whoisToolPath := s.whoisToolPath.getD f.whoisToolPath,
    whoisPython := s.whoisPython.getD f.whoisPython,
    whoisTimeoutMS := s.whoisTimeoutMS.getD f.whoisTimeoutMS,
    outputFile := s.outputFile.getD f.outputFile, maxmindKey := s.maxmindKey.getD f.maxmindKey,
    dbUpdateHours := s.dbUpdateHours.getD f.dbUpdateHours }

/-- Embedding of `dnsgeeo.Config` as constructed at `main.go` lines 413-427.
`dnsServers` records the string handed to `dnsgeeo.ParseServers` (the parser
itself is outside the provided sources).  Durations are in nanoseconds. -/
structure Config where
  dnsServers : String
  lookupTimeoutNS : Int
  parallelism : Int
  preferIPv6 : Bool
  checkMalicious : Bool
  enableWhois : Bool
  whoisToolPath : String
  whoisPython : String
  whoisTimeoutNS : Int
  cityDBPath : String
  asnDBPath : String
  ipCacheSize : Int
  ipCacheTTLNS : Int
deriving DecidableEq

/-- The `dnsgeeo.Config` literal of `main.go` lines 413-427. -/
def mkConfig (f : Flags) : Config :=
  { dnsServers := f.dns, lookupTimeoutNS := f.timeoutMS * 1000000,
    parallelism := f.parallel, preferIPv6 := f.preferIPv6,
    checkMalicious := f.checkMalicious, enableWhois := f.enableWhois,
    whoisToolPath := f.whoisToolPath, whoisPython := f.whoisPython,
    whoisTimeoutNS := f.whoisTimeoutMS * 1000000, cityDBPath := f.cityDB,
    asnDBPath := f.asnDB, ipCacheSize := 10000, ipCacheTTLNS := 600000000000 }

/-- Observable milestones of a `main` run, in program order. -/
inductive Event where
  | dbUpdate | openDBs | initCache | batchRun | pslRun
deriving DecidableEq

/-- `main.go` lines 336-340: fall back to `./tools/whois_rdap.py` when no
tool path is set and the file exists (`statToolsOk`). -/
def toolFallback (statToolsOk : Bool) (f : Flags) : Flags :=
  if f.whoisToolPath = "" ∧ statToolsOk = true then
    { f with whoisToolPath := "./tools/whois_rdap.py" }
  else f

/-- `main.go` lines 371-375: re-enable WHOIS when the `whois` flag was not
given, the config map lacks a `whois` key, a tool path is set and WHOIS is
currently off. -/
def whoisFix (setFlags : String → Bool) (values : List (String × String)) (f : Flags) : Flags :=
  if ¬ setFlags "whois" ∧ values.lookup "whois" = none ∧
      f.whoisToolPath ≠ "" ∧ f.enableWhois = false then
    { f with enableWhois := true }
  else f

/-- `main.go` lines 377-386: split the `--list` flag on commas, trim each
piece, drop empties, then append the positional arguments. -/
def splitInputs (list : String) (positional : List String) : List String :=
  (if list = "" then [] else ((splitComma list).map goTrimSpace).filter (fun t => ¬ t = ""))
    ++ positional

/-- Embedding of `main.go` lines 336-447, after flag parsing and config-file
application: the trace of milestone events and the `Config` value when its
construction (line 413) is reached.  `updateOk` and `openOk` are the results
of `maybeUpdateGeoLiteDatabases` and `dnsgeeo.OpenDBs`; paths that call
`os.Exit` end the trace. -/
def mainAfterConfig (setFlags : String → Bool) (values : List (String × String))
    (statToolsOk updateOk openOk : Bool) (f0 : Flags) (positional : List String) :
    List Event × Option Config :=
  let f1 := toolFallback statToolsOk f0
  if f1.pslPrivateList = true then
    if f1.whoisToolPath = "" then ([], none) else ([Event.pslRun], none)
  else
    let f2 := whoisFix setFlags values f1
    let inputs := splitInputs f2.list positional
    if inputs = [] then ([], none)
    else if f2.dbUpdateHours < 0 then ([], none)
    else if (0 < f2.dbUpdateHours ∧ (f2.cityDB ≠ "" ∨ f2.asnDB ≠ "")) ∧ updateOk = false then
      ([Event.dbUpdate], none)
    else
      let pre := if 0 < f2.dbUpdateHours ∧ (f2.cityDB ≠ "" ∨ f2.asnDB ≠ "") then
        [Event.dbUpdate] else []
      (pre ++ (if openOk = true then [Event.openDBs, Event.initCache, Event.batchRun]
               else [Event.openDBs]),
       some (mkConfig f2))

/-- `main.go` lines 308-334 composed with the rest of `main`: apply the
config map when non-empty (exiting on a parse error), then continue. -/
def mainRun (atoi : AtoiFn) (parseBool : ParseBoolFn) (setFlags : String → Bool)
    (values : List (String × String)) (statToolsOk updateOk openOk : Bool)
    (f0 : Flags) (positional : List String) : List Event × Option Config :=
  if values = [] then mainAfterConfig setFlags values statToolsOk updateOk openOk f0 positional
  else
    match applyConfigValues atoi parseBool setFlags values (optsOf f0) with
    | Except.error _ => ([], none)
    | Except.ok s =>
        mainAfterConfig setFlags values statToolsOk updateOk openOk
          (flagsAfterConfig f0 s) positional

/-! ## GeoLite auto-refresh (`geolite_update.go`, provided as
`src/unnamed/part_001`) -/

/-- Oracle for `os.Stat` as used by `fileNeedsRefresh`: the file is missing,
`Stat` failed with another error, or the file exists with the given age
(`time.Since(ModTime)`) in nanoseconds. -/
inductive StatRes where
  | notExist
  | statErr (msg : String)
  | statOk (ageNS : Int)

/-- Filesystem operations performed by the refresh, for the claim that a
disabled refresh touches no file. -/
inductive FileOp where
  | statFile (path : String)
  | download (edition : String) (path : String)
deriving DecidableEq

/-- Embedding of `fileNeedsRefresh` (`part_001` lines 59-71). -/
def fileNeedsRefresh (stat : String → StatRes) (path : String) (maxAge : Int) :
    Except String Bool :=
  match stat path with
  | StatRes.notExist => Except.ok true
  | StatRes.statErr e => Except.error e
  | StatRes.statOk age =>
      if maxAge ≤ 0 then Except.ok false else Except.ok (decide (maxAge ≤ age))

/-- The loop body of `maybeUpdateGeoLiteDatabases` over its two targets:
skip empty paths, check freshness, download when stale; any error aborts.
The second component logs the filesystem operations performed. -/
def refreshTargets (stat : String → StatRes) (dl : String → String → Option String)
    (maxAge : Int) : List (String × String) → List FileOp →
    Except String Unit × List FileOp
  | [], ops => (Except.ok (), ops)
  | (path, edition) :: rest, ops =>
      if path = "" then refreshTargets stat dl maxAge rest ops
      else
        match fileNeedsRefresh stat path maxAge with
        | Except.error e =>
            (Except.error ("check freshness: " ++ e), ops ++ [FileOp.statFile path])
        | Except.ok false => refreshTargets stat dl maxAge rest (ops ++ [FileOp.statFile path])
        | Except.ok true =>
            match dl edition path with
            | some e =>
                (Except.error ("refresh database: " ++ e),
                 ops ++ [FileOp.statFile path, FileOp.download edition path])
            | none =>
                refreshTargets stat dl maxAge rest
                  (ops ++ [FileOp.statFile path, FileOp.download edition path])

/-- Embedding of `maybeUpdateGeoLiteDatabases` (`part_001` lines 20-57);
`dl` is the `downloadGeoLiteEdition` oracle (`some msg` on failure). -/
def maybeUpdateGeoLiteDatabases (stat : String → StatRes)
    (dl : String → String → Option String) (licenseKey : String) (maxAge : Int)
    (cityPath asnPath : String) : Except String Unit × List FileOp :=
  if maxAge ≤ 0 then (Except.ok (), [])
  else if goTrimSpace licenseKey = "" then
    (Except.error "maxmind license key is required when db-update-hours is set", [])
  else
    refreshTargets stat dl maxAge
      [(cityPath, "GeoLite2-City"), (asnPath, "GeoLite2-ASN")] []

/-! ## Concrete oracles and claim-side predicates used by the theorems -/

/-- The spec's "contains a path separator" condition on a tool path. -/
def containsPathSeparator (s : String) : Bool :=
  s.data.contains '/'

/-- The spec's "ends in `.py`" condition on a tool path. -/
def endsInPy (s : String) : Bool :=
  ".py".data.isSuffixOf s.data

/-- A subprocess that exits 0 and prints an empty JSON array. -/
def execEmptyOk : ExecFn := fun _ _ => { err := none, stdout := "[]", stderr := "" }

/-- A JSON oracle accepting exactly the empty array. -/
def parseEmptyArr : ParseInfosFn :=
  fun s => if s = "[]" then Except.ok [] else Except.error "invalid json"

/-- A PSL JSON oracle accepting exactly the empty array. -/
def parsePSLEmpty : ParsePSLFn :=
  fun s => if s = "[]" then Except.ok [] else Except.error "invalid json"

/-- A first record for domain `a`. -/
def recX : WhoisToolInfo :=
  { domain := "a", registrar := "x", ddnsProvidersByNS := some [], ddnsProviders := some [] }

/-- A second, different record for the same domain `a`. -/
def recY : WhoisToolInfo :=
  { domain := "a", registrar := "y", ddnsProvidersByNS := some [], ddnsProviders := some [] }

/-- A subprocess whose stdout denotes an array holding `recX` then `recY`. -/
def execTwoRecords : ExecFn :=
  fun _ _ => { err := none, stdout := "[record a x, record a y]", stderr := "" }

/-- The JSON oracle decoding that stdout to `[recX, recY]`. -/
def parseTwoRecords : ParseInfosFn :=
  fun s => if s = "[record a x, record a y]" then Except.ok [recX, recY]
           else Except.error "invalid json"

/-- A subprocess whose stdout denotes a one-record array for domain `a`
with absent (`nil`) DDNS provider arrays. -/
def execOneRecord : ExecFn :=
  fun _ _ => { err := none, stdout := "[record a]", stderr := "" }

/-- The JSON oracle decoding that stdout. -/
def parseOneRecord : ParseInfosFn :=
  fun s => if s = "[record a]" then Except.ok [{ domain := "a" }]
           else Except.error "invalid json"

/-- A `strconv.Atoi` oracle accepting only `200`. -/
def atoiSimple : AtoiFn := fun s => if s = "200" then some 200 else none

/-- A `strconv.ParseBool` oracle rejecting everything. -/
def pbSimple : ParseBoolFn := fun _ => none

end DNSGeeo

namespace DNSGeeo

/-! ## Theorems -/

/-- Helper: a nonpositive duration has a nonpositive whole-second count. -/
theorem tdiv_nanos_nonpos (t : Int) (h : t ≤ 0) : Int.tdiv t 1000000000 ≤ 0 := by
  have h1 : (0 : Int) ≤ -t := by omega
  have h2 : (0 : Int) ≤ Int.tdiv (-t) 1000000000 := Int.tdiv_nonneg h1 (by norm_num)
  rw [Int.neg_tdiv] at h2
  omega

/-- C1 counterexample: the tool path `tool` has no path separator and does
not end in `.py`, yet `RunWhoisTool` launches the interpreter on it and
returns success rather than a validation error.  (The only check the code
performs is that the tool path is non-empty.) -/
theorem runWhoisTool_launches_unvalidated_path :
    containsPathSeparator "tool" = false ∧ endsInPy "tool" = false ∧
    RunWhoisTool execEmptyOk parseEmptyArr "python3" "tool" ["example.com"] 0 =
      (Except.ok [], [("python3", ["tool", "--list", "example.com", "--timeout", "8"])]) :=
  ⟨by decide, by decide, by decide⟩

/-- C1 (amended): before any subprocess execution, `RunWhoisTool` and
`RunWhoisPSLPrivateList` return an error without launching anything when the
tool path is empty; this is the only tool/interpreter path validation these
functions perform. -/
theorem runWhoisTool_empty_path_error :
    (∀ (exec : ExecFn) (parse : ParseInfosFn) (py : String) (ds : List String) (t : Int),
        RunWhoisTool exec parse py "" ds t = (Except.error "whois tool path is empty", [])) ∧
    (∀ (exec : ExecFn) (parse : ParsePSLFn) (py : String) (t : Int),
        RunWhoisPSLPrivateList exec parse py "" t =
          (Except.error "whois tool path is empty", [])) := by
  exact ⟨fun _ _ _ _ _ => rfl, fun _ _ _ _ => rfl⟩

/-- C3 counterexample: on input `"a. "` the code keeps the trailing dot
(`uniqueDomains` yields `["a."]`), while the claim's normalization (strip
surrounding whitespace and a single trailing dot) yields `["a"]`. -/
theorem uniqueDomains_dot_before_space_counterexample :
    uniqueDomains (fun _ => false) ["a. "] = ["a."] ∧
    claimedDomainsSpec (fun _ => false) ["a. "] = ["a"] ∧
    uniqueDomains (fun _ => false) ["a. "] ≠ claimedDomainsSpec (fun _ => false) ["a. "] :=
  ⟨by decide, by decide, by decide⟩

/-- Helper for C3: the interleaved seen-set loop equals the
normalize-filter-dedup pipeline, for any starting seen-set. -/
theorem uniqueDomainsAux_eq_pipeline (isIP : String → Bool) (inputs : List String) :
    ∀ seen, uniqueDomainsAux isIP inputs seen =
      dedupFrom seen ((inputs.map codeNormalize).filter (keepHost isIP)) := by
  induction inputs with
  | nil => intro seen; rfl
  | cons raw rest ih =>
      intro seen
      by_cases h1 : codeNormalize raw = ""
      · simp [uniqueDomainsAux, keepHost, h1, ih]
      · by_cases h2 : isIP (codeNormalize raw) = true
        · simp [uniqueDomainsAux, keepHost, h1, h2, ih]
        · by_cases h3 : codeNormalize raw ∈ seen
          · simp [uniqueDomainsAux, keepHost, dedupFrom, h1, h2, h3, ih]
          · simp [uniqueDomainsAux, keepHost, dedupFrom, h1, h2, h3, ih]

/-- C3 (amended): the domain list passed to the WHOIS invoker contains
exactly the inputs normalized by stripping a single trailing dot and THEN
surrounding whitespace (so a trailing dot followed by whitespace survives),
with empty and IP-literal entries removed and first-occurrence
deduplication by exact string equality. -/
theorem uniqueDomains_eq_claimed_pipeline :
    ∀ (isIP : String → Bool) (inputs : List String),
      uniqueDomains isIP inputs = claimedDomainsCode isIP inputs := by
  intro isIP inputs
  exact uniqueDomainsAux_eq_pipeline isIP inputs []

/-- C8: with a non-empty tool path and an empty domain list `RunWhoisTool`
returns an empty mapping and no error without launching anything; a
nonpositive timeout makes the `--timeout` argument `8` in both entry
points; an empty interpreter path is replaced by `python3`. -/
theorem runWhoisTool_defaults :
    (∀ (exec : ExecFn) (parse : ParseInfosFn) (py tp : String) (t : Int), tp ≠ "" →
        RunWhoisTool exec parse py tp [] t = (Except.ok [], [])) ∧
    (∀ (exec : ExecFn) (parse : ParseInfosFn) (py tp : String) (ds : List String) (t : Int),
        tp ≠ "" → ds ≠ [] → t ≤ 0 →
        (RunWhoisTool exec parse py tp ds t).2 =
          [(effectivePython py,
            [tp, "--list", String.intercalate "," ds, "--timeout", "8"])]) ∧
    (∀ (exec : ExecFn) (parse : ParsePSLFn) (py tp : String) (t : Int), tp ≠ "" → t ≤ 0 →
        (RunWhoisPSLPrivateList exec parse py tp t).2 =
          [(effectivePython py, [tp, "--psl-private-list", "--timeout", "8"])]) ∧
    (∀ (exec : ExecFn) (parse : ParseInfosFn) (tp : String) (ds : List String) (t : Int),
        tp ≠ "" → ds ≠ [] →
        (RunWhoisTool exec parse "" tp ds t).2.map Prod.fst = ["python3"]) ∧
    (∀ (exec : ExecFn) (parse : ParsePSLFn) (tp : String) (t : Int), tp ≠ "" →
        (RunWhoisPSLPrivateList exec parse "" tp t).2.map Prod.fst = ["python3"]) := by
  have hsec : ∀ t : Int, t ≤ 0 → whoisTimeoutSeconds t = 8 := by
    intro t ht
    have := tdiv_nanos_nonpos t ht
    simp [whoisTimeoutSeconds, this]
  refine ⟨?_, ?_, ?_, ?_, ?_⟩
  · intro exec parse py tp t htp
    simp [RunWhoisTool, htp]
  · intro exec parse py tp ds t htp hds ht
    simp only [RunWhoisTool, htp, hds, whoisArgs, hsec t ht, if_false, if_neg htp, if_neg hds]
    rfl
  · intro exec parse py tp t htp ht
    simp only [RunWhoisPSLPrivateList, pslArgs, hsec t ht, if_neg htp]
    rfl
  · intro exec parse tp ds t htp hds
    simp [RunWhoisTool, htp, hds, effectivePython]
  · intro exec parse tp t htp
    simp [RunWhoisPSLPrivateList, htp, effectivePython]

/-- C8 witness: the parts of `runWhoisTool_defaults` evaluated at concrete
inputs. -/
theorem runWhoisTool_defaults_witness :
    RunWhoisTool execEmptyOk parseEmptyArr "python3" "t.py" [] 5 = (Except.ok [], []) ∧
    (RunWhoisTool execEmptyOk parseEmptyArr "" "t.py" ["a"] 0).2 =
      [("python3", ["t.py", "--list", "a", "--timeout", "8"])] := by
  constructor
  · exact runWhoisTool_defaults.1 execEmptyOk parseEmptyArr "python3" "t.py" 5 (by decide)
  · have h := runWhoisTool_defaults.2.1 execEmptyOk parseEmptyArr "" "t.py" ["a"] 0
      (by decide) (by decide) (by decide)
    exact h.trans (by decide)

/-- Helper: the record normalization always yields non-`nil` array fields. -/
theorem withArrays_fields (i : WhoisToolInfo) :
    (withArrays i).ddnsProvidersByNS ≠ none ∧ (withArrays i).ddnsProviders ≠ none := by
  unfold withArrays
  by_cases h1 : i.ddnsProvidersByNS = none <;>
    by_cases h2 : i.ddnsProviders = none <;>
      simp [h1, h2]

/-- Helper: membership after a Go-map insertion. -/
theorem mem_insertRecord (m : List (String × WhoisToolInfo)) (k : String)
    (v : WhoisToolInfo) (p : String × WhoisToolInfo) (hp : p ∈ insertRecord m k v) :
    p ∈ m ∨ p = (k, v) := by
  induction m with
  | nil => simp [insertRecord] at hp; simp [hp]
  | cons q rest ih =>
      obtain ⟨k', v'⟩ := q
      by_cases hk : k' = k
      · simp [insertRecord, hk] at hp
        rcases hp with hp | hp
        · right; simp [hp]
        · left; simp [hp]
      · simp [insertRecord, hk] at hp
        rcases hp with hp | hp
        · left; simp [hp]
        · rcases ih hp with h | h
          · left; simp [h]
          · right; exact h


/-- Helper: every value in the built mapping is a normalized record,
provided every value already in the accumulator is. -/
theorem buildResultAux_values (l : List WhoisToolInfo) :
    ∀ (acc : List (String × WhoisToolInfo)),
      (∀ q ∈ acc, q.2.ddnsProvidersByNS ≠ none ∧ q.2.ddnsProviders ≠ none) →
      ∀ p ∈ buildResultAux acc l,
        p.2.ddnsProvidersByNS ≠ none ∧ p.2.ddnsProviders ≠ none := by
  induction l with
  | nil => intro acc hacc p hp; exact hacc p hp
  | cons i rest ih =>
      intro acc hacc p hp
      by_cases hd : i.domain = ""
      · simp only [buildResultAux, if_pos hd] at hp
        exact ih acc hacc p hp
      · simp only [buildResultAux, if_neg hd] at hp
        refine ih _ ?_ p hp
        intro q hq
        rcases mem_insertRecord acc i.domain (withArrays i) q hq with h | h
        · exact hacc q h
        · rw [h]; exact withArrays_fields i

/-- C9: every value stored in the mapping returned by a successful
`RunWhoisTool` has non-`nil` `DDNSProvidersByNS` and `DDNSProviders`
fields. -/
theorem runWhoisTool_arrays_not_nil (exec : ExecFn) (parse : ParseInfosFn)
    (py tp : String) (ds : List String) (t : Int)
    (m : List (String × WhoisToolInfo))
    (h : (RunWhoisTool exec parse py tp ds t).1 = Except.ok m) :
    ∀ p ∈ m, p.2.ddnsProvidersByNS ≠ none ∧ p.2.ddnsProviders ≠ none := by
  by_cases htp : tp = ""
  · simp [RunWhoisTool, htp] at h
  · by_cases hds : ds = []
    · simp [RunWhoisTool, htp, hds] at h
      intro p hp
      rw [h] at hp
      simp at hp
    · simp only [RunWhoisTool, if_neg htp, if_neg hds] at h
      unfold runWhoisToolOutcome at h
      set r := exec (effectivePython py) (whoisArgs tp ds t) with hr
      by_cases hout : r.stdout = ""
      · rcases he : r.err with _ | e
        · simp [hout, he] at h
        · by_cases hserr : r.stderr = "" <;> simp [hout, he, hserr] at h
      · rcases hpr : parse r.stdout with msg | parsed
        · rcases he : r.err with _ | e
          · simp [hout, hpr, he] at h
          · by_cases hserr : r.stderr = "" <;> simp [hout, hpr, he, hserr] at h
        · simp [hout, hpr] at h
          rw [← h]
          exact buildResultAux_values parsed [] (by simp)

/-- C9 witness: `runWhoisTool_arrays_not_nil` applied to a concrete run
whose parsed record has `nil` DDNS arrays. -/
theorem runWhoisTool_arrays_not_nil_witness :
    (withArrays { domain := "a" }).ddnsProvidersByNS ≠ none ∧
    (withArrays { domain := "a" }).ddnsProviders ≠ none := by
  have h := runWhoisTool_arrays_not_nil execOneRecord parseOneRecord "python3" "t.py"
    ["a"] 0 (buildResult [{ domain := "a" }]) (by decide)
  exact h ("a", withArrays { domain := "a" }) (by decide)

/-- C5: with a non-empty tool path, a non-empty domain list and a timeout of
at least one whole second, `RunWhoisTool` launches the interpreter exactly
once with `[tool, --list, <comma-joined domains>, --timeout, <whole
seconds>]`, and `RunWhoisPSLPrivateList` exactly once with
`[tool, --psl-private-list, --timeout, <whole seconds>]`. -/
theorem whois_invocation_argv (exec : ExecFn) (parseI : ParseInfosFn) (parseP : ParsePSLFn)
    (py tp tp2 : String) (ds : List String) (t t2 : Int)
    (h1 : tp ≠ "") (h2 : ds ≠ []) (h3 : 0 < Int.tdiv t 1000000000)
    (h4 : tp2 ≠ "") (h5 : 0 < Int.tdiv t2 1000000000) :
    (RunWhoisTool exec parseI py tp ds t).2 =
      [(effectivePython py,
        [tp, "--list", String.intercalate "," ds, "--timeout",
         toString (Int.tdiv t 1000000000)])] ∧
    (RunWhoisPSLPrivateList exec parseP py tp2 t2).2 =
      [(effectivePython py,
        [tp2, "--psl-private-list", "--timeout", toString (Int.tdiv t2 1000000000)])] := by
  have hsec : ∀ u : Int, 0 < Int.tdiv u 1000000000 →
      whoisTimeoutSeconds u = Int.tdiv u 1000000000 := by
    intro u hu
    simp only [whoisTimeoutSeconds]
    omega
  constructor
  · simp [RunWhoisTool, h1, h2, whoisArgs, hsec t h3]
  · simp [RunWhoisPSLPrivateList, h4, pslArgs, hsec t2 h5]

/-- C5 witness: the invocation argument vectors at concrete inputs. -/
theorem whois_invocation_argv_witness :
    (RunWhoisTool execEmptyOk parseEmptyArr "python3" "t.py" ["a", "b"] 20000000000).2 =
      [("python3", ["t.py", "--list", "a,b", "--timeout", "20"])] ∧
    (RunWhoisPSLPrivateList execEmptyOk parsePSLEmpty "python3" "t.py" 20000000000).2 =
      [("python3", ["t.py", "--psl-private-list", "--timeout", "20"])] := by
  have h := whois_invocation_argv execEmptyOk parseEmptyArr parsePSLEmpty "python3" "t.py"
    "t.py" ["a", "b"] 20000000000 20000000000 (by decide) (by decide) (by decide)
    (by decide) (by decide)
  exact ⟨h.1.trans (by decide), h.2.trans (by decide)⟩

/-- Helper: with non-empty tool path and domains, a non-empty stdout that
parses successfully makes `RunWhoisTool` return the built mapping. -/
theorem runWhoisTool_parse_ok (exec : ExecFn) (parse : ParseInfosFn)
    (py tp : String) (ds : List String) (t : Int) (parsed : List WhoisToolInfo)
    (h1 : tp ≠ "") (h2 : ds ≠ [])
    (h3 : (exec (effectivePython py) (whoisArgs tp ds t)).stdout ≠ "")
    (h4 : parse (exec (effectivePython py) (whoisArgs tp ds t)).stdout = Except.ok parsed) :
    (RunWhoisTool exec parse py tp ds t).1 = Except.ok (buildResult parsed) := by
  have hrun : (RunWhoisTool exec parse py tp ds t).1 =
      runWhoisToolOutcome parse (exec (effectivePython py) (whoisArgs tp ds t)) := by
    simp [RunWhoisTool, h1, h2]
  rw [hrun]
  unfold runWhoisToolOutcome
  simp [h3, h4]

/-- C2: protocol of `RunWhoisTool` on the subprocess result: non-empty
stdout that parses as a JSON array yields the mapping and no error (whatever
the exit status); empty stdout yields an error — built from the trimmed
stderr when the process failed with non-empty stderr; non-empty stdout that
fails to parse while the process succeeded yields a parse error. -/
theorem runWhoisTool_output_protocol (exec : ExecFn) (parse : ParseInfosFn)
    (py tp : String) (ds : List String) (t : Int) (h1 : tp ≠ "") (h2 : ds ≠ []) :
    (∀ parsed, (exec (effectivePython py) (whoisArgs tp ds t)).stdout ≠ "" →
        parse (exec (effectivePython py) (whoisArgs tp ds t)).stdout = Except.ok parsed →
        (RunWhoisTool exec parse py tp ds t).1 = Except.ok (buildResult parsed)) ∧
    ((exec (effectivePython py) (whoisArgs tp ds t)).stdout = "" →
        ∃ e, (RunWhoisTool exec parse py tp ds t).1 = Except.error e) ∧
    ((exec (effectivePython py) (whoisArgs tp ds t)).stdout = "" →
        (exec (effectivePython py) (whoisArgs tp ds t)).err ≠ none →
        (exec (effectivePython py) (whoisArgs tp ds t)).stderr ≠ "" →
        (RunWhoisTool exec parse py tp ds t).1 =
          Except.error ("whois tool failed: " ++
            goTrimSpace (exec (effectivePython py) (whoisArgs tp ds t)).stderr)) ∧
    (∀ msg, (exec (effectivePython py) (whoisArgs tp ds t)).stdout ≠ "" →
        parse (exec (effectivePython py) (whoisArgs tp ds t)).stdout = Except.error msg →
        (exec (effectivePython py) (whoisArgs tp ds t)).err = none →
        (RunWhoisTool exec parse py tp ds t).1 =
          Except.error ("whois tool output parse error: " ++ msg)) := by
  have hrun : (RunWhoisTool exec parse py tp ds t).1 =
      runWhoisToolOutcome parse (exec (effectivePython py) (whoisArgs tp ds t)) := by
    simp [RunWhoisTool, h1, h2]
  set r := exec (effectivePython py) (whoisArgs tp ds t) with hr
  refine ⟨?_, ?_, ?_, ?_⟩
  · intro parsed hout hpr
    exact runWhoisTool_parse_ok exec parse py tp ds t parsed h1 h2 hout hpr
  · intro hout
    rw [hrun]
    unfold runWhoisToolOutcome
    rcases he : r.err with _ | e
    · simp [hout, he]
    · by_cases hserr : r.stderr = "" <;> simp [hout, he, hserr]
  · intro hout herr hserr
    rw [hrun]
    unfold runWhoisToolOutcome
    rcases he : r.err with _ | e
    · exact absurd he herr
    · simp [hout, he, hserr]
  · intro msg hout hpr he
    rw [hrun]
    unfold runWhoisToolOutcome
    simp [hout, hpr, he]

/-- C2 witness: the success conjunct of `runWhoisTool_output_protocol` at a
concrete run whose subprocess prints an empty JSON array. -/
theorem runWhoisTool_output_protocol_witness :
    (RunWhoisTool execEmptyOk parseEmptyArr "python3" "t.py" ["a"] 0).1 = Except.ok [] := by
  have h := (runWhoisTool_output_protocol execEmptyOk parseEmptyArr "python3" "t.py" ["a"] 0
    (by decide) (by decide)).1 [] (by decide) (by decide)
  exact h.trans (by decide)

/-- C4 counterexample: two different parsed records share the domain `a`;
the map keeps only the last one, so the first record does not appear under
its domain key even though its domain is non-empty. -/
theorem runWhoisTool_duplicate_domain_counterexample :
    parseTwoRecords "[record a x, record a y]" = Except.ok [recX, recY] ∧
    recX.domain = "a" ∧ ¬ recX = recY ∧ withArrays recX = recX ∧
    (RunWhoisTool execTwoRecords parseTwoRecords "python3" "t.py" ["a"] 0).1 =
      Except.ok [("a", recY)] ∧
    ¬ List.lookup "a" [("a", recY)] = some recX :=
  ⟨by decide, by decide, by decide, by decide, by decide, by decide⟩

/-- Helper: Go-map lookup after a Go-map insert. -/
theorem lookup_insertRecord (k : String) (v : WhoisToolInfo) (d : String) :
    ∀ acc, List.lookup d (insertRecord acc k v) =
      if k = d then some v else List.lookup d acc := by
  intro acc
  induction acc with
  | nil =>
      by_cases h : k = d
      · subst h; simp [insertRecord, List.lookup_cons]
      · simp [insertRecord, List.lookup_cons, beq_false_of_ne (fun hh => h hh.symm), h]
  | cons q rest ih =>
      obtain ⟨k', v'⟩ := q
      by_cases hk : k' = k
      · subst hk
        by_cases h : k' = d
        · subst h; simp [insertRecord, List.lookup_cons]
        · simp [insertRecord, List.lookup_cons, beq_false_of_ne (fun hh => h hh.symm), h]
      · by_cases h : k' = d
        · subst h
          have hkd : ¬ k = k' := fun hh => hk hh.symm
          simp [insertRecord, hk, List.lookup_cons, hkd]
        · simp [insertRecord, hk, List.lookup_cons,
            beq_false_of_ne (fun hh => h hh.symm), ih]

/-- Helper: the built map never holds the empty-domain key. -/
theorem lookup_buildResultAux_empty (l : List WhoisToolInfo) :
    ∀ acc, List.lookup "" (buildResultAux acc l) = List.lookup "" acc := by
  induction l with
  | nil => intro acc; rfl
  | cons i rest ih =>
      intro acc
      by_cases hd : i.domain = ""
      · simp [buildResultAux, hd, ih]
      · simp [buildResultAux, hd, ih, lookup_insertRecord, if_neg hd]

/-- Helper: for a non-empty key, the built map holds the last record with
that domain, falling back to the accumulator. -/
theorem lookup_buildResultAux_ne (d : String) (hd : d ≠ "") (l : List WhoisToolInfo) :
    ∀ acc, List.lookup d (buildResultAux acc l) =
      (match lastWithDomain d l with
       | some r => some (withArrays r)
       | none => List.lookup d acc) := by
  induction l with
  | nil => intro acc; rfl
  | cons i rest ih =>
      intro acc
      by_cases hid : i.domain = ""
      · have hne : ¬ i.domain = d := fun hh => hd (by rw [← hh, hid])
        rcases hlast : lastWithDomain d rest with _ | r <;>
          simp [buildResultAux, hid, lastWithDomain, hlast, hne, ih, Ne.symm hd]
      · rcases hlast : lastWithDomain d rest with _ | r
        · by_cases hidd : i.domain = d
          · simp [buildResultAux, hid, lastWithDomain, hlast, hidd, ih,
              lookup_insertRecord, hd]
          · simp [buildResultAux, hid, lastWithDomain, hlast, hidd, ih,
              lookup_insertRecord, hd]
        · simp [buildResultAux, hid, lastWithDomain, hlast, ih]

/-- C4 (amended): a successful parse yields the mapping in which records
with an empty domain are dropped and every non-empty domain key holds the
LAST parsed record bearing that domain (with `nil` arrays replaced);
domains with no record are absent. -/
theorem runWhoisTool_map_last_record (exec : ExecFn) (parse : ParseInfosFn)
    (py tp : String) (ds : List String) (t : Int) (parsed : List WhoisToolInfo)
    (h1 : tp ≠ "") (h2 : ds ≠ [])
    (h3 : (exec (effectivePython py) (whoisArgs tp ds t)).stdout ≠ "")
    (h4 : parse (exec (effectivePython py) (whoisArgs tp ds t)).stdout = Except.ok parsed) :
    (RunWhoisTool exec parse py tp ds t).1 = Except.ok (buildResult parsed) ∧
    ∀ d, List.lookup d (buildResult parsed) =
      if d = "" then none else (lastWithDomain d parsed).map withArrays := by
  constructor
  · exact runWhoisTool_parse_ok exec parse py tp ds t parsed h1 h2 h3 h4
  · intro d
    by_cases hd : d = ""
    · subst hd
      simp [buildResult, lookup_buildResultAux_empty]
    · rw [if_neg hd]
      have h := lookup_buildResultAux_ne d hd parsed []
      rw [buildResult, h]
      rcases lastWithDomain d parsed with _ | r <;> simp

/-- C4 witness: the amended mapping law evaluated on the duplicate-domain
run — the key `a` holds the second record. -/
theorem runWhoisTool_map_last_record_witness :
    List.lookup "a" (buildResult [recX, recY]) = some recY := by
  have h := runWhoisTool_map_last_record execTwoRecords parseTwoRecords "python3" "t.py"
    ["a"] 0 [recX, recY] (by decide) (by decide) (by decide) (by decide)
  exact (h.2 "a").trans (by decide)

/-- Helper: every `Config` the CLI model constructs carries the fixed cache
size and TTL. -/
theorem mainAfterConfig_cache_fixed (sf : String → Bool) (values : List (String × String))
    (statOk uOk oOk : Bool) (f : Flags) (pos : List String) (cfg : Config)
    (h : (mainAfterConfig sf values statOk uOk oOk f pos).2 = some cfg) :
    cfg.ipCacheSize = 10000 ∧ cfg.ipCacheTTLNS = 600000000000 := by
  simp only [mainAfterConfig, apply_ite Prod.snd] at h
  split_ifs at h <;> simp at h
  rw [← h]
  exact ⟨rfl, rfl⟩

/-- C6: with no flag and no config override, the CLI builds a `Config` with
the default DNS server string `8.8.8.8:53,8.8.4.4:53`, a 2000 ms lookup
timeout and parallelism 64; and every constructed `Config`, whatever the
flags, has IP-cache capacity 10000 and TTL 10 minutes. -/
theorem cli_config_defaults :
    (∀ (env : String → String) (atoi : AtoiFn) (parseBool : ParseBoolFn)
        (statOk uOk oOk : Bool),
        ((mainRun atoi parseBool (fun _ => false) [] statOk uOk oOk
            (defaultFlags env) ["example.com"]).2).map
          (fun c => (c.dnsServers, c.lookupTimeoutNS, c.parallelism)) =
          some ("8.8.8.8:53,8.8.4.4:53", 2000000000, 64)) ∧
    (∀ (atoi : AtoiFn) (parseBool : ParseBoolFn) (sf : String → Bool)
        (values : List (String × String)) (statOk uOk oOk : Bool) (f : Flags)
        (pos : List String) (cfg : Config),
        (mainRun atoi parseBool sf values statOk uOk oOk f pos).2 = some cfg →
        cfg.ipCacheSize = 10000 ∧ cfg.ipCacheTTLNS = 600000000000) := by
  constructor
  · intro env atoi parseBool statOk uOk oOk
    cases statOk <;> cases uOk <;> cases oOk <;>
      simp [mainRun, mainAfterConfig, defaultFlags, toolFallback, whoisFix,
        splitInputs, mkConfig, splitComma, splitCommaAux]
  · intro atoi parseBool sf values statOk uOk oOk f pos cfg h
    unfold mainRun at h
    by_cases hv : values = []
    · rw [if_pos hv] at h
      exact mainAfterConfig_cache_fixed _ _ _ _ _ _ _ _ h
    · rw [if_neg hv] at h
      rcases ha : applyConfigValues atoi parseBool sf values (optsOf f) with e | s <;>
        rw [ha] at h
      · simp at h
      · exact mainAfterConfig_cache_fixed _ _ _ _ _ _ _ _ h

/-- C6 witness: `cli_config_defaults` applied to a concrete run. -/
theorem cli_config_defaults_witness :
    (mkConfig (defaultFlags (fun _ => ""))).ipCacheSize = 10000 ∧
    (mkConfig (defaultFlags (fun _ => ""))).ipCacheTTLNS = 600000000000 := by
  exact cli_config_defaults.2 (fun _ => none) (fun _ => none) (fun _ => false) []
    false true true (defaultFlags (fun _ => "")) ["example.com"]
    (mkConfig (defaultFlags (fun _ => ""))) (by decide)

/-- Helper: the tool-path fallback touches only `whoisToolPath`. -/
theorem toolFallback_preserves (b : Bool) (f : Flags) :
    (toolFallback b f).dbUpdateHours = f.dbUpdateHours ∧
    (toolFallback b f).cityDB = f.cityDB ∧
    (toolFallback b f).asnDB = f.asnDB ∧
    (toolFallback b f).list = f.list ∧
    (toolFallback b f).pslPrivateList = f.pslPrivateList := by
  unfold toolFallback
  split <;> exact ⟨rfl, rfl, rfl, rfl, rfl⟩

/-- Helper: the WHOIS re-enable fix touches only `enableWhois`. -/
theorem whoisFix_preserves (sf : String → Bool) (values : List (String × String)) (f : Flags) :
    (whoisFix sf values f).dbUpdateHours = f.dbUpdateHours ∧
    (whoisFix sf values f).cityDB = f.cityDB ∧
    (whoisFix sf values f).asnDB = f.asnDB ∧
    (whoisFix sf values f).list = f.list ∧
    (whoisFix sf values f).pslPrivateList = f.pslPrivateList := by
  unfold whoisFix
  split <;> exact ⟨rfl, rfl, rfl, rfl, rfl⟩

/-- C7: when db-update-hours is positive and a database path is configured
(and the run reaches the batch path), the GeoLite refresh is the first
milestone of the run — before `OpenDBs` and before any batch work — and on
success the run proceeds `dbUpdate, openDBs, initCache, batch`; moreover a
non-positive refresh interval makes `maybeUpdateGeoLiteDatabases` return
`nil` immediately with no filesystem operation. -/
theorem geolite_refresh_order :
    (∀ (sf : String → Bool) (values : List (String × String)) (statOk uOk oOk : Bool)
        (f : Flags) (pos : List String),
        0 < f.dbUpdateHours → (f.cityDB ≠ "" ∨ f.asnDB ≠ "") →
        f.pslPrivateList = false → splitInputs f.list pos ≠ [] →
        ((mainAfterConfig sf values statOk uOk oOk f pos).1.head? = some Event.dbUpdate ∧
         (uOk = true → oOk = true →
            (mainAfterConfig sf values statOk uOk oOk f pos).1 =
              [Event.dbUpdate, Event.openDBs, Event.initCache, Event.batchRun]))) ∧
    (∀ (stat : String → StatRes) (dl : String → String → Option String)
        (key : String) (maxAge : Int) (city asn : String), maxAge ≤ 0 →
        maybeUpdateGeoLiteDatabases stat dl key maxAge city asn = (Except.ok (), [])) := by
  constructor
  · intro sf values statOk uOk oOk f pos hpos hdb hpsl hin
    obtain ⟨hf1h, hf1c, hf1a, hf1l, hf1p⟩ := toolFallback_preserves statOk f
    obtain ⟨hf2h, hf2c, hf2a, hf2l, hf2p⟩ :=
      whoisFix_preserves sf values (toolFallback statOk f)
    have hp1 : (toolFallback statOk f).pslPrivateList = false := hf1p.trans hpsl
    have hh : (whoisFix sf values (toolFallback statOk f)).dbUpdateHours =
        f.dbUpdateHours := hf2h.trans hf1h
    have hc : (whoisFix sf values (toolFallback statOk f)).cityDB = f.cityDB :=
      hf2c.trans hf1c
    have ha : (whoisFix sf values (toolFallback statOk f)).asnDB = f.asnDB :=
      hf2a.trans hf1a
    have hl : (whoisFix sf values (toolFallback statOk f)).list = f.list :=
      hf2l.trans hf1l
    have hnneg : ¬ f.dbUpdateHours < 0 := by omega
    have hdb' : ¬ f.cityDB = "" ∨ ¬ f.asnDB = "" := hdb
    cases uOk with
    | false =>
        constructor
        · simp [mainAfterConfig, hp1, hh, hc, ha, hl, hin, hnneg, hpos, hdb']
        · intro hu; exact absurd hu (by decide)
    | true =>
        constructor
        · cases oOk <;>
            simp [mainAfterConfig, hp1, hh, hc, ha, hl, hin, hnneg, hpos, hdb']
        · intro _ ho
          subst ho
          simp [mainAfterConfig, hp1, hh, hc, ha, hl, hin, hnneg, hpos, hdb']
  · intro stat dl key maxAge city asn hle
    simp [maybeUpdateGeoLiteDatabases, hle]

/-- C7 witness: the milestone trace and the disabled-refresh law at concrete
inputs. -/
theorem geolite_refresh_order_witness :
    (mainAfterConfig (fun _ => false) [] false true true
        { defaultFlags (fun _ => "") with dbUpdateHours := 12, cityDB := "/tmp/c.mmdb" }
        ["example.com"]).1 =
      [Event.dbUpdate, Event.openDBs, Event.initCache, Event.batchRun] ∧
    maybeUpdateGeoLiteDatabases (fun _ => StatRes.notExist) (fun _ _ => none)
        "key" 0 "/tmp/c.mmdb" "" = (Except.ok (), []) := by
  constructor
  · exact (geolite_refresh_order.1 (fun _ => false) [] false true true
      { defaultFlags (fun _ => "") with dbUpdateHours := 12, cityDB := "/tmp/c.mmdb" }
      ["example.com"] (by decide) (Or.inl (by decide)) (by decide) (by decide)).2
      rfl rfl
  · exact geolite_refresh_order.2 (fun _ => StatRes.notExist) (fun _ _ => none)
      "key" 0 "/tmp/c.mmdb" "" (by decide)

/-- Helper: option-state agreement is reflexive. -/
theorem agrees_refl (fid : FieldId) (s : OptsState) : agrees fid s s := by
  cases fid <;> rfl

/-- Helper: option-state agreement is transitive. -/
theorem agrees_trans (fid : FieldId) (a b c : OptsState)
    (h1 : agrees fid a b) (h2 : agrees fid b c) : agrees fid a c := by
  cases fid <;> exact h2.trans h1

set_option maxHeartbeats 2000000 in
/-- Helper: one `switch` iteration leaves an option's variable unchanged
when its flag was explicitly set or the entry's key differs from its key. -/
theorem applyStep_agrees (atoi : AtoiFn) (parseBool : ParseBoolFn) (sf : String → Bool)
    (s : OptsState) (kv : String × String) (s' : OptsState) (fid : FieldId)
    (h : applyStep atoi parseBool sf s kv = Except.ok s')
    (hk : sf (keyOf fid) = true ∨ kv.1 ≠ keyOf fid) : agrees fid s s' := by
  obtain ⟨k, v⟩ := kv
  simp only [applyStep] at h
  split at h <;>
    (try split at h) <;>
    (try split at h) <;>
    first
      | (injection h with h2; subst h2;
         cases fid <;>
           (simp only [keyOf] at hk; first | rfl | (exfalso; tauto)))
      | (injection h)

/-- Helper: the whole config application leaves an option's variable
unchanged when its flag was set or no entry carries its key. -/
theorem applyConfigValues_agrees (atoi : AtoiFn) (parseBool : ParseBoolFn)
    (sf : String → Bool) (fid : FieldId) :
    ∀ (values : List (String × String)) (s s' : OptsState),
      applyConfigValues atoi parseBool sf values s = Except.ok s' →
      (sf (keyOf fid) = true ∨ ∀ kv ∈ values, kv.1 ≠ keyOf fid) →
      agrees fid s s' := by
  intro values
  induction values with
  | nil =>
      intro s s' h _
      injection h with h2
      subst h2
      exact agrees_refl fid s
  | cons kv rest ih =>
      intro s s' h hcond
      unfold applyConfigValues at h
      rcases hstep : applyStep atoi parseBool sf s kv with e | s1 <;> rw [hstep] at h
      · simp at h
      · have hk : sf (keyOf fid) = true ∨ kv.1 ≠ keyOf fid := by
          rcases hcond with hc | hc
          · exact Or.inl hc
          · exact Or.inr (hc kv (List.mem_cons_self kv rest))
        have h1 := applyStep_agrees atoi parseBool sf s kv s1 fid hstep hk
        have hcond' : sf (keyOf fid) = true ∨ ∀ kv' ∈ rest, kv'.1 ≠ keyOf fid := by
          rcases hcond with hc | hc
          · exact Or.inl hc
          · exact Or.inr (fun kv' hkv' => hc kv' (List.mem_cons_of_mem kv hkv'))
        exact agrees_trans fid s s1 s' h1 (ih s1 s' h hcond')

/-- C10: `applyConfigValues` never modifies a variable whose flag was
explicitly set, never modifies a variable whose config key is absent from
the map, and applying an empty config map changes nothing. -/
theorem applyConfigValues_frame :
    (∀ (atoi : AtoiFn) (parseBool : ParseBoolFn) (sf : String → Bool)
        (values : List (String × String)) (s s' : OptsState),
        applyConfigValues atoi parseBool sf values s = Except.ok s' →
        (∀ fid : FieldId, sf (keyOf fid) = true → agrees fid s s') ∧
        (∀ fid : FieldId, ¬ (keyOf fid) ∈ values.map Prod.fst → agrees fid s s')) ∧
    (∀ (atoi : AtoiFn) (parseBool : ParseBoolFn) (sf : String → Bool) (s : OptsState),
        applyConfigValues atoi parseBool sf [] s = Except.ok s) := by
  constructor
  · intro atoi pb sf values s s' h
    constructor
    · intro fid hf
      exact applyConfigValues_agrees atoi pb sf fid values s s' h (Or.inl hf)
    · intro fid hf
      refine applyConfigValues_agrees atoi pb sf fid values s s' h (Or.inr ?_)
      intro kv hkv heq
      exact hf (by rw [← heq]; exact List.mem_map_of_mem Prod.fst hkv)
  · intro _ _ _ _
    rfl

/-- C10 witness: with `dns` explicitly set, a config holding both `dns` and
`parallel` changes only `parallel`. -/
theorem applyConfigValues_frame_witness :
    agrees FieldId.dns (optsOf (defaultFlags (fun _ => "")))
      { optsOf (defaultFlags (fun _ => "")) with parallel := some 200 } := by
  have h := applyConfigValues_frame.1 atoiSimple pbSimple (fun k => k == "dns")
    [("dns", "1.1.1.1"), ("parallel", "200")] (optsOf (defaultFlags (fun _ => "")))
    { optsOf (defaultFlags (fun _ => "")) with parallel := some 200 } (by decide)
  exact h.1 FieldId.dns (by decide)
